import Mathlib

/-!
Verification of `bugbug/generative_model_tool.py`: a shallow embedding of the
module's data model and operations, followed by theorems about the behaviour
the specification describes.

The module is glue code: a registry `AVAILABLE_LLMS` built at load time by
scanning the module globals for functions named `create_X_llm`, a CLI binder
`create_llm_to_args`, a dispatcher `create_llm_from_args`, and an abstract
base class `GenerativeModelTool` holding one LLM client and a tokenizer.

Modelling conventions:
- Python values appearing in this module (None, float literals, strings) are
  the inductive `PyVal`.
- A Python dict is an association list (`List (String × _)`) with insertion
  order preserved; `dictInsert` is dict assignment, `dictContains` is `in`.
- Raised exceptions are `Except PyError` results.
- External libraries are parameters: the tiktoken library is a `Tiktoken`
  structure, the secret store behind `get_secret` is a `SecretStore`
  function, and provider SDK client constructors are constructors of the
  inductive `LLMClient` (the spec places the SDKs out of scope).
- Module-level mutable state (the `AVAILABLE_LLMS` global) is a
  `ModuleState` threaded through `_st` variants of each operation, so that
  frame properties are statable.
-/

set_option autoImplicit false

namespace BugbugGenerativeModelTool

/-- A Python value as used in this module: `None`, a float literal
(represented exactly as a rational), or a string. -/
inductive PyVal where
  | pyNone : PyVal
  | float : ℚ → PyVal
  | str : String → PyVal
deriving DecidableEq, Repr

/-- Errors the module can raise: `NotImplementedError` from
`create_llm_from_args`, `TypeError` from a keyword-argument mismatch in a
constructor call, `KeyError` from a failed `globals()` lookup. -/
inductive PyError where
  | notImplementedError : PyError
  | typeError : PyError
  | keyError : PyError
deriving DecidableEq, Repr

/-- One entry of `inspect.signature(f).parameters`: the parameter's name and
its declared default (`none` models `Parameter.empty`, i.e. no default). -/
structure Param where
  name : String
  default : Option PyVal
deriving DecidableEq, Repr

/-- Python dict assignment `d[k] = v`: replace in place when the key exists,
append otherwise (insertion order is preserved). -/
def dictInsert {α : Type} (d : List (String × α)) (k : String) (v : α) :
    List (String × α) :=
  if d.any (fun kv => kv.1 = k) then
    d.map (fun kv => if kv.1 = k then (k, v) else kv)
  else
    d ++ [(k, v)]

/-- Python `k in d` on a dict: key containment. -/
def dictContains {α : Type} (d : List (String × α)) (k : String) : Bool :=
  d.any (fun kv => kv.1 = k)

/-- Python `d[k]` on a dict, as an `Option`. -/
def dictGet {α : Type} (d : List (String × α)) (k : String) : Option α :=
  (d.find? (fun kv => kv.1 = k)).map Prod.snd

/-! ### The regex scan `re.search(r"create_(.*?)_llm", name)`

`re.search` returns the match starting at the leftmost position where the
whole pattern can match; the lazy group `(.*?)` then takes the shortest
string of characters that is followed by the literal `_llm`. -/

/-- The lazy group of the pattern: the shortest prefix of `cs` that is
followed by the literal `_llm`; `none` when `_llm` never occurs in `cs`. -/
def findShortestGroup : List Char → Option (List Char)
  | [] => none
  | c :: rest =>
    if "_llm".toList.isPrefixOf (c :: rest) then some []
    else (findShortestGroup rest).map (fun g => c :: g)

/-- Try to match `create_(.*?)_llm` at the start of `cs`, returning the
group. -/
def matchAt (cs : List Char) : Option (List Char) :=
  if "create_".toList.isPrefixOf cs then
    findShortestGroup (cs.drop "create_".toList.length)
  else none

/-- Leftmost match of `create_(.*?)_llm` in `cs`, returning the group. -/
def searchFrom : List Char → Option (List Char)
  | [] => matchAt []
  | c :: rest =>
    match matchAt (c :: rest) with
    | some g => some g
    | none => searchFrom rest

/-- Embedding of `re.search(r"create_(.*?)_llm", name)`, returning
`match.group(1)`. -/
def re_search_create_llm (s : String) : Option String :=
  (searchFrom s.toList).map (fun g => String.mk g)

/-! ### The module globals at the time of the registry scan -/

/-- Signature of `create_human_llm` per `inspect.signature`: no
parameters. -/
def create_human_llm_params : List Param := []

/-- Signature of `create_openai_llm` per `inspect.signature`:
`temperature=0.2`. -/
def create_openai_llm_params : List Param :=
  [⟨"temperature", some (PyVal.float (2/10))⟩]

/-- Signature of `create_azureopenai_llm` per `inspect.signature`:
`temperature=0.2`. -/
def create_azureopenai_llm_params : List Param :=
  [⟨"temperature", some (PyVal.float (2/10))⟩]

/-- Signature of `create_anthropic_llm` per `inspect.signature`:
`temperature=0.2`. -/
def create_anthropic_llm_params : List Param :=
  [⟨"temperature", some (PyVal.float (2/10))⟩]

/-- Signature of `create_mistral_llm` per `inspect.signature`:
`temperature=0.2`. -/
def create_mistral_llm_params : List Param :=
  [⟨"temperature", some (PyVal.float (2/10))⟩]

/-- The constructor functions defined at module level, by their global name,
with their declared parameter lists; `none` for any other name (a lookup in
`globals()` of such a name would raise `KeyError`). -/
def moduleFunctionParams (fname : String) : Option (List Param) :=
  if fname = "create_human_llm" then some create_human_llm_params
  else if fname = "create_openai_llm" then some create_openai_llm_params
  else if fname = "create_azureopenai_llm" then some create_azureopenai_llm_params
  else if fname = "create_anthropic_llm" then some create_anthropic_llm_params
  else if fname = "create_mistral_llm" then some create_mistral_llm_params
  else none

/-- Value of `list(globals())` at the point where the registry loop
starts, in
insertion order: module dunders, the imported names (`inspect`, `re`,
`ABC`, `abstractmethod`, `INFO`, `basicConfig`, `getLogger`, `Any`,
`get_secret`), `logger`, the five constructor functions, and the
just-assigned empty `AVAILABLE_LLMS`. `create_llm_to_args`,
`create_llm_from_args` and `GenerativeModelTool` are defined after the loop
and are absent. -/
def moduleGlobalNamesAtScan : List String :=
  ["__name__", "__doc__", "__package__", "__loader__", "__spec__",
   "__file__", "__cached__", "__builtins__",
   "inspect", "re", "ABC", "abstractmethod", "INFO", "basicConfig",
   "getLogger", "Any", "get_secret", "logger",
   "create_human_llm", "create_openai_llm", "create_azureopenai_llm",
   "create_anthropic_llm", "create_mistral_llm", "AVAILABLE_LLMS"]

/-- The registry-building loop: for each global name matching
`create_(.*?)_llm`, look up `globals()[f"create_X_llm"]` (a failed lookup
raises `KeyError`, modelled as `none` for the whole load) and record its
signature parameters under the key `X`. -/
def buildAvailableLLMs (names : List String) :
    Option (List (String × List Param)) :=
  names.foldlM
    (fun acc nm =>
      match re_search_create_llm nm with
      | none => some acc
      | some llm_name =>
        match moduleFunctionParams ("create_" ++ llm_name ++ "_llm") with
        | none => none
        | some ps => some (dictInsert acc llm_name ps))
    []

/-- The `AVAILABLE_LLMS` registry after module load. -/
def AVAILABLE_LLMS : List (String × List Param) :=
  (buildAvailableLLMs moduleGlobalNamesAtScan).getD []

/-! ### The constructor functions and the dispatcher -/

/-- Modelled from the spec: the external secret store behind
`bugbug.utils.get_secret` ("provider API keys and endpoints fetched by name
from an external secret store"); a store maps a secret name to its value. -/
def SecretStore : Type := String → String

/-- Modelled from the spec: `get_secret(name)` fetches the named secret from
the external secret store. -/
def get_secret (store : SecretStore) (name : String) : String := store name

/-- A provider SDK client object, as built by the five constructor
functions. The SDK classes themselves are out of scope (spec section 1), so
a client is the constructor tag together with the arguments the module
passes. -/
inductive LLMClient where
  | humanInputLLM : LLMClient
  | chatOpenAI (model_name api_key : String) (temperature : PyVal) : LLMClient
  | azureChatOpenAI (azure_endpoint azure_deployment api_key api_version : String)
      (temperature : PyVal) : LLMClient
  | chatAnthropic (model_name api_key : String) (temperature : PyVal) : LLMClient
  | chatMistralAI (model_name api_key : String) (temperature : PyVal) : LLMClient
deriving DecidableEq, Repr

/-- Call semantics of `create_human_llm(**kwargs)`: no parameters, so any
keyword argument is
a `TypeError`; otherwise a `HumanInputLLM` client. -/
def create_human_llm (kwargs : List (String × PyVal)) :
    Except PyError LLMClient :=
  if kwargs = [] then Except.ok LLMClient.humanInputLLM
  else Except.error PyError.typeError

/-- Call semantics of `create_openai_llm(temperature=0.2)`: a keyword
other than `temperature` is a `TypeError`; otherwise a `ChatOpenAI` client
with the fixed model name, the `OPENAI_API_KEY` secret, and the given or
default temperature. -/
def create_openai_llm (store : SecretStore) (kwargs : List (String × PyVal)) :
    Except PyError LLMClient :=
  if kwargs.all (fun kv => kv.1 = "temperature") then
    Except.ok (LLMClient.chatOpenAI "gpt-4o-2024-05-13"
      (get_secret store "OPENAI_API_KEY")
      ((dictGet kwargs "temperature").getD (PyVal.float (2/10))))
  else Except.error PyError.typeError

/-- Call semantics of `create_azureopenai_llm(temperature=0.2)`. -/
def create_azureopenai_llm (store : SecretStore)
    (kwargs : List (String × PyVal)) : Except PyError LLMClient :=
  if kwargs.all (fun kv => kv.1 = "temperature") then
    Except.ok (LLMClient.azureChatOpenAI
      (get_secret store "OPENAI_API_ENDPOINT")
      (get_secret store "OPENAI_API_DEPLOY")
      (get_secret store "OPENAI_API_KEY")
      (get_secret store "OPENAI_API_VERSION")
      ((dictGet kwargs "temperature").getD (PyVal.float (2/10))))
  else Except.error PyError.typeError

/-- Call semantics of `create_anthropic_llm(temperature=0.2)`. -/
def create_anthropic_llm (store : SecretStore)
    (kwargs : List (String × PyVal)) : Except PyError LLMClient :=
  if kwargs.all (fun kv => kv.1 = "temperature") then
    Except.ok (LLMClient.chatAnthropic "claude-3-5-sonnet-20240620"
      (get_secret store "ANTHROPIC_API_KEY")
      ((dictGet kwargs "temperature").getD (PyVal.float (2/10))))
  else Except.error PyError.typeError

/-- Call semantics of `create_mistral_llm(temperature=0.2)`. -/
def create_mistral_llm (store : SecretStore)
    (kwargs : List (String × PyVal)) : Except PyError LLMClient :=
  if kwargs.all (fun kv => kv.1 = "temperature") then
    Except.ok (LLMClient.chatMistralAI "mistral-large-latest"
      (get_secret store "MISTRAL_API_KEY")
      ((dictGet kwargs "temperature").getD (PyVal.float (2/10))))
  else Except.error PyError.typeError

/-- Dispatch of `globals()[f"create_{name}_llm"](**kwargs)`: call the
constructor
function of that global name; a name with no such global is a `KeyError`. -/
def callConstructor (store : SecretStore) (name : String)
    (kwargs : List (String × PyVal)) : Except PyError LLMClient :=
  if name = "human" then create_human_llm kwargs
  else if name = "openai" then create_openai_llm store kwargs
  else if name = "azureopenai" then create_azureopenai_llm store kwargs
  else if name = "anthropic" then create_anthropic_llm store kwargs
  else if name = "mistral" then create_mistral_llm store kwargs
  else Except.error PyError.keyError

/-! ### `create_llm_from_args` -/

/-- An argparse namespace as `create_llm_from_args` receives it: the `llm`
attribute and the remaining attributes (the per-provider option flags). -/
structure Args where
  llm : String
  attrs : List (String × PyVal)
deriving DecidableEq, Repr

/-- Embedding of `vars(args)`: the attribute dict of the namespace. -/
def vars_args (a : Args) : List (String × PyVal) :=
  ("llm", PyVal.str a.llm) :: a.attrs

/-- The `llm_creation_args` dict: every attribute of `args` whose name
starts with `f"{args.llm}_"`, under the name with that prefix sliced off. -/
def llm_creation_args (a : Args) : List (String × PyVal) :=
  (vars_args a).filterMap (fun kv =>
    if (a.llm ++ "_").toList.isPrefixOf kv.1.toList then
      some (String.mk (kv.1.toList.drop (a.llm ++ "_").toList.length), kv.2)
    else none)

/-- The module's global mutable state: the `AVAILABLE_LLMS` dict. Threaded
through the operations so that frame properties are statable. -/
structure ModuleState where
  available_llms : List (String × List Param)
deriving DecidableEq, Repr

/-- Body of `create_llm_from_args(args)`: raise `NotImplementedError` when
`args.llm` is not a registry key, else call the provider's constructor on
the prefix-stripped attributes. Returns the module state unchanged. -/
def create_llm_from_args_st (st : ModuleState) (store : SecretStore)
    (a : Args) : Except PyError LLMClient × ModuleState :=
  (if !(dictContains st.available_llms a.llm) then
    Except.error PyError.notImplementedError
  else
    callConstructor store a.llm (llm_creation_args a), st)

/-- Function `create_llm_from_args` against the actual module registry. -/
def create_llm_from_args (store : SecretStore) (a : Args) :
    Except PyError LLMClient :=
  (create_llm_from_args_st ⟨AVAILABLE_LLMS⟩ store a).1

/-! ### `create_llm_to_args` -/

/-- One argparse flag as `add_argument` records it: the flag string, whether
it is required, its `choices` (when given), its default (`None` when not
given, as argparse defaults to), and its help text. Argument groups only
affect help layout, so the parser is the flat list of its flags in addition
order. -/
structure ArgFlag where
  flag : String
  required : Bool
  choices : Option (List String)
  default : PyVal
  help : String
deriving DecidableEq, Repr

/-- Body of `create_llm_to_args(parser)`: add the required `--llm` flag
whose
choices are the registry keys, then for every provider and every parameter
of its constructor a flag `--{provider}-{param}` defaulting to the
signature's default, or `None` when the signature declares none. Returns
the module state unchanged. -/
def create_llm_to_args_st (st : ModuleState) (parser : List ArgFlag) :
    List ArgFlag × ModuleState :=
  (parser ++
    [ArgFlag.mk "--llm" true (some (st.available_llms.map Prod.fst))
      PyVal.pyNone "LLM"] ++
    st.available_llms.flatMap (fun pr =>
      pr.2.map (fun p =>
        ArgFlag.mk ("--" ++ pr.1 ++ "-" ++ p.name) false none
          (match p.default with
           | some d => d
           | none => PyVal.pyNone)
          p.name)), st)

/-- Function `create_llm_to_args` against the actual module registry. -/
def create_llm_to_args (parser : List ArgFlag) : List ArgFlag :=
  (create_llm_to_args_st ⟨AVAILABLE_LLMS⟩ parser).1

/-! ### `GenerativeModelTool` -/

/-- A tiktoken encoding object: its name and its `encode` method. -/
structure Encoding where
  name : String
  encode : String → List Nat

/-- The tiktoken library: `encoding_for_model` (`none` models the
`KeyError` it raises for an unknown model name) and `get_encoding`. -/
structure Tiktoken where
  encoding_for_model : String → Option Encoding
  get_encoding : String → Encoding

/-- An llm object as passed to `GenerativeModelTool.__init__`: all the
class reads from it is the `model_name` attribute, `none` when
`hasattr(llm, "model_name")` is false. -/
structure LLMObject where
  model_name : Option String

/-- The `GenerativeModelTool` instance state after `__init__`: the wrapped
llm client and the derived tokenizer. -/
structure GenerativeModelTool where
  llm : LLMObject
  _tokenizer : Encoding

/-- Body of `_set_tokenizer(model_name)`: `tiktoken.encoding_for_model`,
recovering
from its `KeyError` by falling back to the fixed `cl100k_base` encoding.
The returned Bool records whether the fallback log message was emitted. -/
def GenerativeModelTool._set_tokenizer (tk : Tiktoken) (model_name : String) :
    Encoding × Bool :=
  match tk.encoding_for_model model_name with
  | some enc => (enc, false)
  | none => (tk.get_encoding "cl100k_base", true)

/-- The model name `__init__` passes to `_set_tokenizer`:
`llm.model_name if hasattr(llm, "model_name") else ""`. -/
def GenerativeModelTool.model_name_arg (llm : LLMObject) : String :=
  match llm.model_name with
  | some m => m
  | none => ""

/-- Body of `__init__(llm)`: store the llm reference and set the
tokenizer. The
Bool records whether the fallback log message was emitted. -/
def GenerativeModelTool.init (tk : Tiktoken) (llm : LLMObject) :
    GenerativeModelTool × Bool :=
  (GenerativeModelTool.mk llm
    (GenerativeModelTool._set_tokenizer tk
      (GenerativeModelTool.model_name_arg llm)).1,
   (GenerativeModelTool._set_tokenizer tk
     (GenerativeModelTool.model_name_arg llm)).2)

/-- Body of `count_tokens(text)`: the length of the encoding of
`text`. -/
def GenerativeModelTool.count_tokens (t : GenerativeModelTool)
    (text : String) : Nat :=
  (t._tokenizer.encode text).length

/-- Constructor `__init__` with the module state threaded through: the
constructor
reads no module global. -/
def GenerativeModelTool.init_st (st : ModuleState) (tk : Tiktoken)
    (llm : LLMObject) : (GenerativeModelTool × Bool) × ModuleState :=
  (GenerativeModelTool.init tk llm, st)

/-- Method `count_tokens` with the instance and module state threaded
through: the
method reads `self._tokenizer` and writes nothing. -/
def GenerativeModelTool.count_tokens_st (st : ModuleState)
    (t : GenerativeModelTool) (text : String) :
    (Nat × GenerativeModelTool) × ModuleState :=
  ((GenerativeModelTool.count_tokens t text, t), st)

/-! ### Concrete fixtures used by witnesses -/

/-- A concrete encoding object, for witnesses. -/
def encW : Encoding :=
  Encoding.mk "enc-w" (fun s => s.toList.map Char.toNat)

/-- A concrete tiktoken instance, for witnesses: it knows the model name
`gpt-4` and no other. -/
def tkW : Tiktoken :=
  Tiktoken.mk (fun m => if m = "gpt-4" then some encW else none)
    (fun n => Encoding.mk n (fun s => s.toList.map Char.toNat))

/-! ### Helper lemmas -/

/-- The registry scan succeeds (no `KeyError` during module load) and yields
the five providers, in definition order, each mapped to its constructor's
declared parameters. -/
lemma buildAvailableLLMs_eq :
    buildAvailableLLMs moduleGlobalNamesAtScan =
      some [("human", create_human_llm_params),
            ("openai", create_openai_llm_params),
            ("azureopenai", create_azureopenai_llm_params),
            ("anthropic", create_anthropic_llm_params),
            ("mistral", create_mistral_llm_params)] := by
  rfl

/-- The registry, evaluated. -/
lemma availableLLMs_eq :
    AVAILABLE_LLMS =
      [("human", create_human_llm_params),
       ("openai", create_openai_llm_params),
       ("azureopenai", create_azureopenai_llm_params),
       ("anthropic", create_anthropic_llm_params),
       ("mistral", create_mistral_llm_params)] := by
  rfl

lemma dictContains_iff {α : Type} (d : List (String × α)) (k : String) :
    dictContains d k = true ↔ k ∈ d.map Prod.fst := by
  simp [dictContains, List.any_eq_true, List.mem_map]

lemma isPrefixOf_eq_append (p s : List Char) :
    p.isPrefixOf s = true ↔ ∃ t, s = p ++ t := by
  induction p generalizing s with
  | nil => simp [List.isPrefixOf]
  | cons a as ih =>
    cases s with
    | nil => simp [List.isPrefixOf]
    | cons b bs =>
      simp only [List.isPrefixOf, Bool.and_eq_true, beq_iff_eq, ih,
        List.cons_append, List.cons.injEq]
      constructor
      · rintro ⟨rfl, t, rfl⟩
        exact ⟨t, rfl, rfl⟩
      · rintro ⟨t, rfl, rfl⟩
        exact ⟨rfl, t, rfl⟩

lemma toList_append (s t : String) : (s ++ t).toList = s.toList ++ t.toList := by
  cases s
  cases t
  rfl

lemma string_eq_of_toList {s t : String} (h : s.toList = t.toList) : s = t :=
  congrArg String.mk h

/-- The characterization of `llm_creation_args`: an entry `(k, v)` is
collected exactly when `args` has the attribute `f"{args.llm}_{k}"` with
value `v`. -/
lemma mem_llm_creation_args (a : Args) (k : String) (v : PyVal) :
    (k, v) ∈ llm_creation_args a ↔ (a.llm ++ "_" ++ k, v) ∈ vars_args a := by
  unfold llm_creation_args
  rw [List.mem_filterMap]
  constructor
  · rintro ⟨⟨n, w⟩, hmem, hf⟩
    split at hf
    case isTrue hp =>
      obtain ⟨t, ht⟩ := (isPrefixOf_eq_append _ _).1 hp
      simp only [Option.some.injEq, Prod.mk.injEq] at hf
      obtain ⟨hk, hv⟩ := hf
      have hdrop : n.toList.drop (a.llm ++ "_").toList.length = t := by
        rw [ht, List.drop_left]
      have hk' : k = String.mk t := by rw [← hk, hdrop]
      have he : a.llm ++ "_" ++ k = n := by
        apply string_eq_of_toList
        rw [hk', toList_append, ht]
        rfl
      rw [he, ← hv]
      exact hmem
    case isFalse hp => exact absurd hf (by simp)
  · intro hmem
    refine ⟨(a.llm ++ "_" ++ k, v), hmem, ?_⟩
    have hp : (a.llm ++ "_").toList.isPrefixOf (a.llm ++ "_" ++ k).toList = true := by
      exact (isPrefixOf_eq_append _ _).2 ⟨k.toList, by rw [toList_append]⟩
    simp only [hp, if_true]
    simp only [toList_append]
    rw [List.drop_left]
    exact rfl

/-! ### Claims C1, C6, C7 -/

/-- C1: for every args object whose `llm` field is not a key of the
`AVAILABLE_LLMS` registry, `create_llm_from_args` raises
`NotImplementedError` immediately — the result is exactly the error, no
constructor ran; for every args object whose `llm` field is a registry key,
the call never results in `NotImplementedError` (whichever constructor runs
cannot raise it either). -/
theorem create_llm_from_args_notImplemented (store : SecretStore) (a : Args) :
    (a.llm ∉ AVAILABLE_LLMS.map Prod.fst →
      create_llm_from_args store a = Except.error PyError.notImplementedError)
    ∧ (a.llm ∈ AVAILABLE_LLMS.map Prod.fst →
      create_llm_from_args store a ≠ Except.error PyError.notImplementedError) := by
  constructor
  · intro h
    have hc : dictContains AVAILABLE_LLMS a.llm = false := by
      rw [← Bool.not_eq_true]
      exact fun hb => h ((dictContains_iff _ _).1 hb)
    unfold create_llm_from_args create_llm_from_args_st
    simp [hc]
  · intro h
    have hc : dictContains AVAILABLE_LLMS a.llm = true := (dictContains_iff _ _).2 h
    unfold create_llm_from_args create_llm_from_args_st
    simp only [hc, Bool.not_true, Bool.false_eq_true, if_false]
    rw [availableLLMs_eq] at h
    simp only [List.map_cons, List.map_nil, List.mem_cons, List.not_mem_nil,
      or_false] at h
    rcases h with h | h | h | h | h <;> rw [h] <;>
      simp [callConstructor, create_human_llm, create_openai_llm,
        create_azureopenai_llm, create_anthropic_llm, create_mistral_llm] <;>
      split <;> simp

/-- C1 witness: at concrete inputs, an unregistered name gives exactly
`NotImplementedError` and a registered one never does. -/
theorem create_llm_from_args_notImplemented_witness :
    create_llm_from_args (fun _ => "k") (Args.mk "doesnotexist" []) =
      Except.error PyError.notImplementedError
    ∧ create_llm_from_args (fun _ => "k") (Args.mk "human" []) ≠
      Except.error PyError.notImplementedError :=
  ⟨(create_llm_from_args_notImplemented (fun _ => "k")
      (Args.mk "doesnotexist" [])).1 (by decide),
   (create_llm_from_args_notImplemented (fun _ => "k")
      (Args.mk "human" [])).2 (by decide)⟩

/-- C6: for every provider name in the registry, calling the corresponding
constructor function with its declared defaults (no overriding keyword
arguments) produces a client object without raising. -/
theorem constructor_defaults_ok (store : SecretStore) (name : String)
    (h : name ∈ AVAILABLE_LLMS.map Prod.fst) :
    ∃ c, callConstructor store name [] = Except.ok c := by
  rw [availableLLMs_eq] at h
  simp only [List.map_cons, List.map_nil, List.mem_cons, List.not_mem_nil,
    or_false] at h
  rcases h with h | h | h | h | h <;> rw [h] <;> exact ⟨_, rfl⟩

/-- C6 witness: the `openai` constructor succeeds on its defaults. -/
theorem constructor_defaults_ok_witness :
    ∃ c, callConstructor (fun _ => "secretvalue") "openai" [] = Except.ok c :=
  constructor_defaults_ok (fun _ => "secretvalue") "openai" (by decide)

/-- C7: for a registered provider, `create_llm_from_args` calls that
provider's constructor on exactly the attributes of `args` whose names
start with `f"{args.llm}_"`, each under the name with the prefix stripped;
an attribute is passed iff `args` holds it under the prefixed name, so other
providers' flag groups are never passed. -/
theorem create_llm_from_args_kwargs (store : SecretStore) (a : Args)
    (h : a.llm ∈ AVAILABLE_LLMS.map Prod.fst) :
    create_llm_from_args store a =
      callConstructor store a.llm (llm_creation_args a)
    ∧ ∀ k v, ((k, v) ∈ llm_creation_args a ↔
        (a.llm ++ "_" ++ k, v) ∈ vars_args a) := by
  refine ⟨?_, fun k v => mem_llm_creation_args a k v⟩
  have hc : dictContains AVAILABLE_LLMS a.llm = true := (dictContains_iff _ _).2 h
  unfold create_llm_from_args create_llm_from_args_st
  simp [hc]

/-- C7 witness: concrete dispatch — the `openai` attributes reach the
constructor with the `openai_` prefix stripped. -/
theorem create_llm_from_args_kwargs_witness :
    create_llm_from_args (fun _ => "sk")
      (Args.mk "openai" [("openai_temperature", PyVal.str "0.5"),
        ("mistral_temperature", PyVal.pyNone)]) =
      callConstructor (fun _ => "sk") "openai"
        (llm_creation_args (Args.mk "openai"
          [("openai_temperature", PyVal.str "0.5"),
           ("mistral_temperature", PyVal.pyNone)])) :=
  (create_llm_from_args_kwargs (fun _ => "sk")
    (Args.mk "openai" [("openai_temperature", PyVal.str "0.5"),
      ("mistral_temperature", PyVal.pyNone)]) (by decide)).1

/-! ### Claims C5 and C4 -/

/-- C5: after module load, the `AVAILABLE_LLMS` keys are exactly the
provider names `X` for which a constructor `create_X_llm` is defined in the
module — `human`, `openai`, `azureopenai`, `anthropic`, `mistral`, in
definition order — and each key maps to that constructor's declared
parameter list (names and defaults from the function signature). -/
theorem availableLLMs_registry :
    AVAILABLE_LLMS =
      [("human", create_human_llm_params),
       ("openai", create_openai_llm_params),
       ("azureopenai", create_azureopenai_llm_params),
       ("anthropic", create_anthropic_llm_params),
       ("mistral", create_mistral_llm_params)]
    ∧ ∀ pr ∈ AVAILABLE_LLMS,
        moduleFunctionParams ("create_" ++ pr.1 ++ "_llm") = some pr.2 := by
  refine ⟨availableLLMs_eq, fun pr hpr => ?_⟩
  rw [availableLLMs_eq] at hpr
  fin_cases hpr <;> rfl

/-- C5 witness: the `openai` registry entry is the `create_openai_llm`
signature. -/
theorem availableLLMs_registry_witness :
    moduleFunctionParams ("create_" ++ "openai" ++ "_llm") =
      some create_openai_llm_params :=
  availableLLMs_registry.2 ("openai", create_openai_llm_params)
    (by simp [availableLLMs_eq])

/-- C4: `create_llm_to_args` adds a required `--llm` flag whose choices are
exactly the registry's provider names, and, for every provider in the
registry and every parameter of its constructor, a flag
`--{provider}-{param}` whose default is the default declared in the
constructor's signature, or `None` when the signature declares none. -/
theorem create_llm_to_args_flags (parser : List ArgFlag) :
    ArgFlag.mk "--llm" true (some (AVAILABLE_LLMS.map Prod.fst))
      PyVal.pyNone "LLM" ∈ create_llm_to_args parser
    ∧ ∀ pr ∈ AVAILABLE_LLMS, ∀ p ∈ pr.2,
        ArgFlag.mk ("--" ++ pr.1 ++ "-" ++ p.name) false none
          (match p.default with
           | some d => d
           | none => PyVal.pyNone)
          p.name ∈ create_llm_to_args parser := by
  constructor
  · unfold create_llm_to_args create_llm_to_args_st
    simp [List.mem_append]
  · intro pr hpr p hp
    unfold create_llm_to_args create_llm_to_args_st
    simp only [List.append_assoc, List.mem_append, List.mem_flatMap]
    exact Or.inr (Or.inr ⟨pr, hpr, List.mem_map_of_mem _ hp⟩)

/-- C4 witness: on an empty parser, the `--llm` flag and the
`--openai-temperature` flag (default 0.2, from the signature) are added. -/
theorem create_llm_to_args_flags_witness :
    ArgFlag.mk "--llm" true (some (AVAILABLE_LLMS.map Prod.fst))
      PyVal.pyNone "LLM" ∈ create_llm_to_args []
    ∧ ArgFlag.mk "--openai-temperature" false none (PyVal.float (2/10))
      "temperature" ∈ create_llm_to_args [] :=
  ⟨(create_llm_to_args_flags []).1,
   (create_llm_to_args_flags []).2 ("openai", create_openai_llm_params)
     (by simp [availableLLMs_eq])
     (Param.mk "temperature" (some (PyVal.float (2/10))))
     (by simp [create_openai_llm_params])⟩

/-! ### Claims C2, C3, C9 -/

/-- The tokenizer stored by `__init__` is the one `_set_tokenizer`
produces. -/
lemma init_tokenizer_eq (tk : Tiktoken) (llm : LLMObject) :
    (GenerativeModelTool.init tk llm).1._tokenizer =
      (GenerativeModelTool._set_tokenizer tk
        (GenerativeModelTool.model_name_arg llm)).1 := rfl

/-- C3: when the tokenizer lookup fails (`encoding_for_model` raises
`KeyError`), `_set_tokenizer` does not propagate the error: it returns the
fixed `cl100k_base` default encoding and emits the log message (the Bool);
when the lookup succeeds, the looked-up tokenizer is used and no fallback
log is emitted. -/
theorem set_tokenizer_fallback (tk : Tiktoken) (model_name : String) :
    (∀ enc, tk.encoding_for_model model_name = some enc →
      GenerativeModelTool._set_tokenizer tk model_name = (enc, false))
    ∧ (tk.encoding_for_model model_name = none →
      GenerativeModelTool._set_tokenizer tk model_name =
        (tk.get_encoding "cl100k_base", true)) := by
  constructor
  · intro enc h
    unfold GenerativeModelTool._set_tokenizer
    rw [h]
  · intro h
    unfold GenerativeModelTool._set_tokenizer
    rw [h]

/-- C3 witness: on a concrete tiktoken, the known model keeps its encoding
with no log and the unknown model falls back to `cl100k_base` with the
log. -/
theorem set_tokenizer_fallback_witness :
    GenerativeModelTool._set_tokenizer tkW "gpt-4" = (encW, false)
    ∧ GenerativeModelTool._set_tokenizer tkW "unknown-model" =
      (tkW.get_encoding "cl100k_base", true) :=
  ⟨(set_tokenizer_fallback tkW "gpt-4").1 encW rfl,
   (set_tokenizer_fallback tkW "unknown-model").2 rfl⟩

/-- C2: `count_tokens` returns the length of the tokenizer's encoding of
the text — a non-negative integer — for every input string; and when the
tool was constructed with a model name the tokenizer lookup does not
recognize, the tokenizer in use is the fallback `cl100k_base` encoding. -/
theorem count_tokens_nonneg (tk : Tiktoken) (llm : LLMObject)
    (text : String) :
    ((GenerativeModelTool.init tk llm).1.count_tokens text : Int) =
      (((GenerativeModelTool.init tk llm).1._tokenizer.encode text).length : Int)
    ∧ 0 ≤ ((GenerativeModelTool.init tk llm).1.count_tokens text : Int)
    ∧ (tk.encoding_for_model (GenerativeModelTool.model_name_arg llm) = none →
        (GenerativeModelTool.init tk llm).1._tokenizer =
          tk.get_encoding "cl100k_base"
        ∧ (GenerativeModelTool.init tk llm).1.count_tokens text =
          ((tk.get_encoding "cl100k_base").encode text).length) := by
  refine ⟨rfl, Int.ofNat_nonneg _, fun h => ?_⟩
  have ht : (GenerativeModelTool.init tk llm).1._tokenizer =
      tk.get_encoding "cl100k_base" := by
    rw [init_tokenizer_eq]
    unfold GenerativeModelTool._set_tokenizer
    rw [h]
  refine ⟨ht, ?_⟩
  unfold GenerativeModelTool.count_tokens
  rw [ht]

/-- C2 witness: on a concrete tool built with an unrecognized model name,
`count_tokens` is non-negative and the tokenizer is the fallback. -/
theorem count_tokens_nonneg_witness :
    0 ≤ ((GenerativeModelTool.init tkW
        (LLMObject.mk (some "unknown-model"))).1.count_tokens "hello" : Int)
    ∧ (GenerativeModelTool.init tkW
        (LLMObject.mk (some "unknown-model"))).1._tokenizer =
      tkW.get_encoding "cl100k_base" :=
  ⟨(count_tokens_nonneg tkW (LLMObject.mk (some "unknown-model")) "hello").2.1,
   ((count_tokens_nonneg tkW (LLMObject.mk (some "unknown-model"))
      "hello").2.2 rfl).1⟩

/-- C9: when the llm object has no `model_name` attribute, `__init__` uses
the empty string as the model name for the tokenizer lookup; since the
tiktoken model table has no entry for the empty string (its lookup raises
`KeyError`, here the hypothesis `hk`), the tool's tokenizer is the fallback
`cl100k_base` encoding. -/
theorem init_no_model_name (tk : Tiktoken) (llm : LLMObject)
    (h : llm.model_name = none) (hk : tk.encoding_for_model "" = none) :
    GenerativeModelTool.model_name_arg llm = ""
    ∧ (GenerativeModelTool.init tk llm).1._tokenizer =
      tk.get_encoding "cl100k_base" := by
  have hm : GenerativeModelTool.model_name_arg llm = "" := by
    unfold GenerativeModelTool.model_name_arg
    rw [h]
  refine ⟨hm, ?_⟩
  rw [init_tokenizer_eq, hm]
  unfold GenerativeModelTool._set_tokenizer
  rw [hk]

/-- C9 witness: a concrete llm object without `model_name` gets the
fallback tokenizer. -/
theorem init_no_model_name_witness :
    GenerativeModelTool.model_name_arg (LLMObject.mk none) = ""
    ∧ (GenerativeModelTool.init tkW (LLMObject.mk none)).1._tokenizer =
      tkW.get_encoding "cl100k_base" :=
  init_no_model_name tkW (LLMObject.mk none) rfl rfl

/-! ### Claims C8 and C10 -/

/-- C8: the `AVAILABLE_LLMS` registry is never modified after module load:
`create_llm_to_args`, `create_llm_from_args` (whether it returns a client
or an error), `GenerativeModelTool` construction and `count_tokens` all
return the module state — the registry's keys and values — unchanged. -/
theorem registry_frame (st : ModuleState) (parser : List ArgFlag)
    (store : SecretStore) (a : Args) (tk : Tiktoken) (llm : LLMObject)
    (t : GenerativeModelTool) (text : String) :
    (create_llm_to_args_st st parser).2 = st
    ∧ (create_llm_from_args_st st store a).2 = st
    ∧ (GenerativeModelTool.init_st st tk llm).2 = st
    ∧ (GenerativeModelTool.count_tokens_st st t text).2 = st :=
  ⟨rfl, rfl, rfl, rfl⟩

/-- C10: after construction the `llm` and `_tokenizer` fields are fixed:
`count_tokens` leaves both unchanged for every tool and input string. -/
theorem count_tokens_frame (st : ModuleState) (t : GenerativeModelTool)
    (text : String) :
    (GenerativeModelTool.count_tokens_st st t text).1.2.llm = t.llm
    ∧ (GenerativeModelTool.count_tokens_st st t text).1.2._tokenizer =
      t._tokenizer :=
  ⟨rfl, rfl⟩

end BugbugGenerativeModelTool
